/-
Formal model of the CloudSound radio-streaming service core, shallowly
embedded from the Python source:
  * `src/api/streaming.py`  — the two streaming endpoints,
  * `src/consumers/music_downloaded_consumer.py` — the ingestion pipeline,
  * `src/models/*.py`       — the data model and its unique constraints,
  * `src/producers/kafka_producer.py` — the playback-event publisher.

Database queries are modelled by passing their results (or the table
contents) explicitly; metric updates and event publishes are recorded in
an effect trace; exceptions are modelled by the explicit control flow of
the translated functions.
-/
import Mathlib

namespace CloudSound

/-! ## Python `int()` on a string (the subset relevant to range headers)

`int(s)` strips surrounding ASCII whitespace, accepts one optional sign
and then a nonempty run of decimal digits; anything else raises
`ValueError`.  (The grammar's underscore-grouping and non-ASCII digit
forms never occur in the inputs quantified over here and are elided.) -/

def isPySpace (c : Char) : Bool :=
  c = ' ' || c = '\t' || c = '\n' || c = '\r' || c = '\x0b' || c = '\x0c'

def digitsToNat (cs : List Char) : Option Nat :=
  if cs = [] then none
  else if cs.all (·.isDigit) then
    some (cs.foldl (fun acc c => acc * 10 + (c.toNat - 48)) 0)
  else none

def pyInt (s : String) : Option Int :=
  let cs := (s.toList.dropWhile isPySpace).reverse.dropWhile isPySpace |>.reverse
  match cs with
  | '+' :: rest => (digitsToNat rest).map Int.ofNat
  | '-' :: rest => (digitsToNat rest).map (fun n => -(n : Int))
  | rest => (digitsToNat rest).map Int.ofNat

/-! ## Range header resolution

From `streaming.py` lines 101-105 / 212-216:
```
range_match = range_header.replace("bytes=", "").split("-")
start = int(range_match[0]) if range_match[0] else 0
end = int(range_match[1]) if len(range_match) > 1 and range_match[1] else track.file_size - 1
```
A failing `int()` raises `ValueError`, modelled as `.error ()`. -/

/-- True when `pat` is an initial segment of `cs`. -/
def charsStartWith : List Char → List Char → Bool
  | [], _ => true
  | _ :: _, [] => false
  | p :: ps, c :: cs => p == c && charsStartWith ps cs

/-- Left-to-right non-overlapping deletion of every occurrence of `pat`
(the semantics of Python `s.replace(pat, "")`).  The fuel argument is
the remaining input length, making the recursion structural. -/
def dropOccsFuel (pat : List Char) : Nat → List Char → List Char
  | _, [] => []
  | 0, cs => cs
  | n + 1, c :: cs =>
    if charsStartWith pat (c :: cs) then
      dropOccsFuel pat n (List.drop (pat.length - 1) cs)
    else
      c :: dropOccsFuel pat n cs

/-- Python `s.replace(pat, "")` for a nonempty `pat`. -/
def pyReplaceEmpty (s pat : String) : String :=
  if pat.toList = [] then s
  else String.mk (dropOccsFuel pat.toList s.toList.length s.toList)

/-- Split on every occurrence of a nonempty separator, keeping empty
pieces (the semantics of Python `s.split(sep)`), with the accumulated
current piece held in reverse. -/
def splitOnFuel (sep : List Char) : Nat → List Char → List Char → List (List Char)
  | _, acc, [] => [acc.reverse]
  | 0, acc, cs => [acc.reverse ++ cs]
  | n + 1, acc, c :: cs =>
    if charsStartWith sep (c :: cs) then
      acc.reverse :: splitOnFuel sep n [] (List.drop (sep.length - 1) cs)
    else
      splitOnFuel sep n (c :: acc) cs

/-- Python `s.split(sep)` for a nonempty separator. -/
def pySplit (s sep : String) : List String :=
  if sep.toList = [] then [s]
  else (splitOnFuel sep.toList s.toList.length [] s.toList).map String.mk

def pyRangeParts (header : String) : List String :=
  pySplit (pyReplaceEmpty header "bytes=") "-"

/-- Value of `int(range_match[0]) if range_match[0] else 0`; `none` is
the `ValueError`. -/
def startTokenVal (parts : List String) : Option Int :=
  if parts.headD "" = "" then some 0 else pyInt (parts.headD "")

/-- Value of
`int(range_match[1]) if len(range_match) > 1 and range_match[1] else track.file_size - 1`. -/
def endTokenVal (parts : List String) (fileSize : Int) : Option Int :=
  match parts[1]? with
  | none => some (fileSize - 1)
  | some t => if t = "" then some (fileSize - 1) else pyInt t

def resolveRange (header : String) (fileSize : Int) : Except Unit (Int × Int) :=
  match startTokenVal (pyRangeParts header) with
  | none => .error ()
  | some s =>
    match endTokenVal (pyRangeParts header) fileSize with
    | none => .error ()
    | some e => .ok (s, e)

/-! ## Data model rows (from `src/models/*.py`) -/

def DEFAULT_TENANT_ID : String := "00000000-0000-0000-0000-000000000000"

inductive StationType where
  | upcoming
  | past
  | genre
deriving DecidableEq

structure ArtistRow where
  id : Nat
  name : String
  genre : Option String
  bio : Option String
  tenant_id : String
deriving DecidableEq

structure TrackRow where
  id : Nat
  title : String
  artist_id : Nat
  duration_seconds : Int
  file_path : String
  file_size : Int
  file_format : String
  tenant_id : String
deriving DecidableEq

structure StationRow where
  id : Nat
  name : String
  type : StationType
  genre : Option String
  is_active : Bool
deriving DecidableEq

structure StationTrackRow where
  id : Nat
  station_id : Nat
  track_id : Nat
  order : Int
deriving DecidableEq

/-! ## Effect trace for the streaming endpoints

Each Prometheus metric update and each Kafka publish that
`streaming.py` performs is recorded as one trace entry, in program
order. -/

inductive Eff where
  | incGauge (metric : String) (labels : List (String × String))
  | decGauge (metric : String) (labels : List (String × String))
  | incCounter (metric : String) (labels : List (String × String)) (amount : Int)
  | observeHist (metric : String) (labels : List (String × String))
  | publishPlayback (station_id : String) (track_id : String)
      (duration_seconds : Option Int)
deriving DecidableEq

structure HttpResponse where
  status : Nat
  headers : List (String × String)
  body : List Nat
deriving DecidableEq

/-- Object-store collaborator (`StorageClient`): existence test, whole
object, byte range.  Modelled as total functions, matching the
spec's collaborator contract. -/
structure Storage where
  fileExists : String → Bool
  getFile : String → List Nat
  getFileRange : String → Int → Int → List Nat

def headerVal (r : HttpResponse) (k : String) : Option String :=
  (r.headers.find? (fun p => p.1 == k)).map (·.2)

def stationEndpoint : String := "/radio/stream/station"
def trackEndpoint : String := "/radio/stream/track"

def httpCount (endpoint : String) (st : Nat) : Eff :=
  .incCounter "http_requests_total"
    [("method", "GET"), ("endpoint", endpoint), ("status", toString st)] 1

def httpObserve (endpoint : String) : Eff :=
  .observeHist "http_request_duration_seconds"
    [("method", "GET"), ("endpoint", endpoint)]

def errorResponse (st : Nat) : HttpResponse :=
  { status := st, headers := [], body := [] }

/-- Model of `stream_station` (`streaming.py` lines 26-170).  The results of the
two database lookups (`get_station_by_id`, `get_tracks_for_station`)
are passed in; `stationId` is the path parameter used in metric
labels.  Returns the HTTP response together with the effect trace. -/
def stream_station (stationId : Nat) (stationQ : Option StationRow)
    (tracks : List TrackRow) (storage : Storage)
    (rangeHeader : Option String) : HttpResponse × List Eff :=
  match stationQ with
  | none => (errorResponse 404, [httpCount stationEndpoint 404])
  | some station =>
    if station.is_active = false then
      (errorResponse 403, [httpCount stationEndpoint 403])
    else
      match tracks with
      | [] => (errorResponse 404, [httpCount stationEndpoint 404])
      | track :: _ =>
        let sideEffs : List Eff :=
          [ .incGauge "streaming_connections_active"
              [("station_id", toString stationId)]
          , .incCounter "playback_started_total"
              [("station_id", toString stationId),
               ("track_id", toString track.id)] 1
          , .publishPlayback (toString stationId) (toString track.id) none ]
        if storage.fileExists track.file_path then
          match rangeHeader with
          | some header =>
            match resolveRange header track.file_size with
            | .error _ =>
              -- ValueError from int() reaches the generic handler:
              -- gauge decrement, 500 counter, duration observe, HTTP 500
              (errorResponse 500,
               sideEffs ++
                 [ .decGauge "streaming_connections_active"
                     [("station_id", toString stationId)]
                 , httpCount stationEndpoint 500
                 , httpObserve stationEndpoint ])
            | .ok (s, e) =>
              let fileData := storage.getFileRange track.file_path s e
              let contentLength := e - s + 1
              ({ status := 206,
                 headers :=
                   [("Content-Range",
                       "bytes " ++ toString s ++ "-" ++ toString e ++ "/" ++
                         toString track.file_size),
                    ("Accept-Ranges", "bytes"),
                    ("Content-Length", toString contentLength),
                    ("Content-Type", "audio/" ++ track.file_format)],
                 body := fileData },
               sideEffs ++
                 [ .incCounter "streaming_bytes_sent_total"
                     [("station_id", toString stationId),
                      ("track_id", toString track.id)] contentLength
                 , httpCount stationEndpoint 206
                 , httpObserve stationEndpoint ])
          | none =>
            let fileData := storage.getFile track.file_path
            ({ status := 200,
               headers :=
                 [("Content-Length", toString track.file_size),
                  ("Content-Type", "audio/" ++ track.file_format),
                  ("Accept-Ranges", "bytes")],
               body := fileData },
             sideEffs ++
               [ .incCounter "streaming_bytes_sent_total"
                   [("station_id", toString stationId),
                    ("track_id", toString track.id)] track.file_size
               , httpCount stationEndpoint 200
               , httpObserve stationEndpoint ])
        else
          (errorResponse 404, sideEffs ++ [httpCount stationEndpoint 404])

/-- Model of `stream_track` (`streaming.py` lines 173-268).  The `get_track_by_id`
result is passed in; `trackId` is the path parameter. -/
def stream_track (trackId : Nat) (trackQ : Option TrackRow)
    (storage : Storage) (rangeHeader : Option String) :
    HttpResponse × List Eff :=
  match trackQ with
  | none => (errorResponse 404, [httpCount trackEndpoint 404])
  | some track =>
    if storage.fileExists track.file_path then
      match rangeHeader with
      | some header =>
        match resolveRange header track.file_size with
        | .error _ =>
          (errorResponse 500,
           [httpCount trackEndpoint 500, httpObserve trackEndpoint])
        | .ok (s, e) =>
          let fileData := storage.getFileRange track.file_path s e
          let contentLength := e - s + 1
          ({ status := 206,
             headers :=
               [("Content-Range",
                   "bytes " ++ toString s ++ "-" ++ toString e ++ "/" ++
                     toString track.file_size),
                ("Accept-Ranges", "bytes"),
                ("Content-Length", toString contentLength),
                ("Content-Type", "audio/" ++ track.file_format)],
             body := fileData },
           [ httpCount trackEndpoint 206, httpObserve trackEndpoint ])
      | none =>
        let fileData := storage.getFile track.file_path
        ({ status := 200,
           headers :=
             [("Content-Length", toString track.file_size),
              ("Content-Type", "audio/" ++ track.file_format),
              ("Accept-Ranges", "bytes")],
           body := fileData },
         [ httpCount trackEndpoint 200, httpObserve trackEndpoint ])
    else
      (errorResponse 404, [httpCount trackEndpoint 404])

/-- Net change an effect trace leaves on a named gauge. -/
def gaugeDelta (metric : String) : List Eff → Int
  | [] => 0
  | Eff.incGauge m _ :: rest =>
      (if m = metric then 1 else 0) + gaugeDelta metric rest
  | Eff.decGauge m _ :: rest =>
      (if m = metric then -1 else 0) + gaugeDelta metric rest
  | _ :: rest => gaugeDelta metric rest

/-- True when the trace touches any playback side effect: the
`streaming_connections_active` gauge, the `playback_started_total`
counter, or a playback-event publish. -/
def touchesPlayback (effs : List Eff) : Bool :=
  effs.any fun e =>
    match e with
    | .incGauge m _ => m = "streaming_connections_active"
    | .decGauge m _ => m = "streaming_connections_active"
    | .incCounter m _ _ => m = "playback_started_total"
    | .observeHist _ _ => false
    | .publishPlayback _ _ _ => true

/-! ## Ingestion pipeline (`music_downloaded_consumer.py`)

The `music.downloaded` message: `message.get(key, default)` lookups are
modelled by `Option` fields with the source's defaults applied in
`process_message`.  The free-form `context` map's `concert_id` entry is
modelled as an optional string (Python truthiness of the looked-up
value is emptiness of that string). -/

structure Context where
  concert_id : Option String
deriving DecidableEq

structure Message where
  url : Option String
  file_path : Option String
  title : Option String
  artist : Option String
  duration : Option Int
  file_size : Option Int
  source : Option String
  context : Context
deriving DecidableEq

structure DB where
  artists : List ArtistRow
  tracks : List TrackRow
  stations : List StationRow
  stationTracks : List StationTrackRow
deriving DecidableEq

/-- How `_process_message` returns to the consumer loop: normal return
after commit, normal return after dropping a message with no storage
key, or an exception re-raised after rollback. -/
inductive ProcOutcome where
  | ok
  | dropped
  | error
deriving DecidableEq

/-- True when no two list elements share the same key: the relational
unique constraints checked when inserts are flushed/committed. -/
def nodupKeys {α β : Type} [DecidableEq β] (key : α → β) : List α → Bool
  | [] => true
  | x :: xs => !((xs.map key).contains (key x)) && nodupKeys key xs

/-- Constraint `uq_artists_tenant_name` (`artist.py`). -/
def artistsConstraintOk (artists : List ArtistRow) : Bool :=
  nodupKeys (fun a => (a.tenant_id, a.name)) artists

/-- Constraint `uq_tracks_tenant_file_path` (`track.py` lines 21-24). -/
def tracksConstraintOk (tracks : List TrackRow) : Bool :=
  nodupKeys (fun t => (t.tenant_id, t.file_path)) tracks

/-- Constraint `uq_station_track` (`station_track.py` lines 13-20). -/
def stationTracksConstraintOk (sts : List StationTrackRow) : Bool :=
  nodupKeys (fun l => (l.station_id, l.track_id)) sts

/-- Model of `_get_or_create_artist` (lines 200-233).  The lookup
`select(Artist).where(Artist.name == artist_name)` has no tenant
filter; `scalar_one_or_none` yields the single match, `None`, or
raises `MultipleResultsFound` (modelled as `.error`).  A created
artist gets a fresh id and the fixed `DEFAULT_TENANT_ID`. -/
def get_or_create_artist (artists : List ArtistRow) (artist_name : String)
    (fresh : Nat) : Except Unit (ArtistRow × List ArtistRow) :=
  match artists.filter (fun a => a.name == artist_name) with
  | [] =>
    let artist : ArtistRow :=
      { id := fresh, name := artist_name, genre := none, bio := none,
        tenant_id := DEFAULT_TENANT_ID }
    .ok (artist, artists ++ [artist])
  | [artist] => .ok (artist, artists)
  | _ => .error ()

/-- File-format derivation in `_create_track` (lines 259-266). -/
def fileFormatOf (file_path : String) : String :=
  if file_path.endsWith ".m4a" then "m4a"
  else if file_path.endsWith ".opus" then "opus"
  else if file_path.endsWith ".webm" then "webm"
  else "mp3"

/-- The `should_link` decision of `_link_to_stations` (lines 303-319):
UPCOMING links only when `context.get("concert_id")` is truthy, PAST
and GENRE always link. -/
def shouldLink (station : StationRow) (context : Context) : Bool :=
  match station.type with
  | .upcoming =>
    match context.concert_id with
    | some c => c != ""
    | none => false
  | .past => true
  | .genre => true

/-- Maximum of a list of integers, if nonempty: models
`select(order).order_by(desc).limit(1)` + `scalar_one_or_none`. -/
def listMax : List Int → Option Int
  | [] => none
  | x :: xs =>
    match listMax xs with
    | none => some x
    | some m => some (max x m)

def maxOrderOf (sts : List StationTrackRow) (sid : Nat) : Option Int :=
  listMax ((sts.filter (fun l => l.station_id == sid)).map (·.order))

/-- Python `x or 0` applied to the optional max order (line 327). -/
def orZero : Option Int → Int
  | none => 0
  | some v => if v = 0 then 0 else v

/-- Loop body of `_link_to_stations` (lines 303-342), threading the
session's pending inserts (autoflush makes the max-order query see
links added earlier in the same loop). -/
def linkLoop (track_id : Nat) (context : Context) :
    List StationTrackRow → List StationRow → Nat → List StationTrackRow
  | _, [], _ => []
  | sts, station :: rest, fresh =>
    if shouldLink station context then
      let maxOrder := orZero (maxOrderOf sts station.id)
      let link : StationTrackRow :=
        { id := fresh, station_id := station.id, track_id := track_id,
          order := maxOrder + 1 }
      link :: linkLoop track_id context (sts ++ [link]) rest (fresh + 1)
    else
      linkLoop track_id context sts rest fresh

/-- Model of `_link_to_stations` (lines 285-342): the station query filters
`is_active == True`; returns the new links added to the session. -/
def link_to_stations (sts : List StationTrackRow) (stations : List StationRow)
    (track_id : Nat) (context : Context) (fresh : Nat) :
    List StationTrackRow :=
  linkLoop track_id context sts (stations.filter (·.is_active)) fresh

/-- Model of `_process_message` (lines 131-198).  Fresh ids `fresh`, `fresh+1`,
`fresh+2...` stand for the `uuid4()` calls.  Unique-constraint
violations surface at the artist/track flushes and at commit; any of
them rolls the transaction back and re-raises (`ProcOutcome.error`,
database unchanged). -/
def process_message (db : DB) (message : Message) (fresh : Nat) :
    ProcOutcome × DB :=
  let file_path := message.file_path.getD ""
  if file_path = "" then (.dropped, db)
  else
    let artist_name := message.artist.getD "Unknown Artist"
    match get_or_create_artist db.artists artist_name fresh with
    | .error _ => (.error, db)
    | .ok (artist, artists') =>
      if artistsConstraintOk artists' = false then (.error, db)
      else
        let track : TrackRow :=
          { id := fresh + 1,
            title := message.title.getD "Unknown Track",
            artist_id := artist.id,
            duration_seconds := message.duration.getD 0,
            file_path := file_path,
            file_size := message.file_size.getD 0,
            file_format := fileFormatOf file_path,
            tenant_id := DEFAULT_TENANT_ID }
        let tracks' := db.tracks ++ [track]
        if tracksConstraintOk tracks' = false then (.error, db)
        else
          let newLinks :=
            link_to_stations db.stationTracks db.stations track.id
              message.context (fresh + 2)
          let stationTracks' := db.stationTracks ++ newLinks
          if stationTracksConstraintOk stationTracks' = false then (.error, db)
          else
            (.ok, { db with
                      artists := artists', tracks := tracks',
                      stationTracks := stationTracks' })

/-! ## Concrete fixtures used by witnesses and counterexamples -/

def pastStation : StationRow :=
  { id := 1, name := "Past Performers", type := .past, genre := none,
    is_active := true }

def upcomingStation : StationRow :=
  { id := 2, name := "Upcoming Bands", type := .upcoming, genre := none,
    is_active := true }

def sampleTrack : TrackRow :=
  { id := 10, title := "Sample", artist_id := 3, duration_seconds := 60,
    file_path := "a.mp3", file_size := 1000, file_format := "mp3",
    tenant_id := DEFAULT_TENANT_ID }

def storeWith : Storage :=
  { fileExists := fun _ => true, getFile := fun _ => [1, 2, 3],
    getFileRange := fun _ _ _ => [7] }

def storeWithout : Storage :=
  { fileExists := fun _ => false, getFile := fun _ => [],
    getFileRange := fun _ _ _ => [] }

def ctxNone : Context := { concert_id := none }

def artistY : ArtistRow :=
  { id := 3, name := "Y", genre := none, bio := none,
    tenant_id := DEFAULT_TENANT_ID }

def crossTenantArtist : ArtistRow :=
  { id := 1, name := "X", genre := none, bio := none, tenant_id := "tenant-1" }

def ingestedTrack : TrackRow :=
  { id := 4, title := "Song", artist_id := 3, duration_seconds := 120,
    file_path := "song.mp3", file_size := 2048, file_format := "mp3",
    tenant_id := DEFAULT_TENANT_ID }

def dupDb : DB :=
  { artists := [artistY], tracks := [ingestedTrack],
    stations := [pastStation], stationTracks := [] }

def dupMsg : Message :=
  { url := some "http://x", file_path := some "song.mp3",
    title := some "Song", artist := some "Y", duration := some 120,
    file_size := some 2048, source := some "youtube", context := ctxNone }

def fixtureLink : StationTrackRow :=
  { id := 0, station_id := 1, track_id := 3, order := 7 }

def freshDb : DB :=
  { artists := [], tracks := [], stations := [pastStation],
    stationTracks := [] }

/-! ## Theorems -/

/-- C2: the claim says every invocation of `stream_station` that reaches
the active-connection gauge increment decrements it again on every exit
path, leaving no net increment.  The code decrements only in the
generic-exception handler: a successful 200 delivery and the
404 "object absent" exit both leave the gauge with a net +1; only the
unexpected-failure 500 exit is balanced.  This closed theorem evaluates
the model on those three exits. -/
theorem claim2_gauge_leak :
    gaugeDelta "streaming_connections_active"
        (stream_station 1 (some pastStation) [sampleTrack] storeWith none).2
      = 1 ∧
    (stream_station 1 (some pastStation) [sampleTrack] storeWith none).1.status
      = 200 ∧
    gaugeDelta "streaming_connections_active"
        (stream_station 1 (some pastStation) [sampleTrack] storeWithout none).2
      = 1 ∧
    (stream_station 1 (some pastStation) [sampleTrack] storeWithout none).1.status
      = 404 ∧
    gaugeDelta "streaming_connections_active"
        (stream_station 1 (some pastStation) [sampleTrack] storeWith
          (some "bytes=abc-10")).2
      = 0 ∧
    (stream_station 1 (some pastStation) [sampleTrack] storeWith
        (some "bytes=abc-10")).1.status
      = 500 := by
  refine ⟨rfl, rfl, rfl, rfl, rfl, rfl⟩

/-- C4 counterexample: a station delivery whose audio object is absent
fails with 404, yet its effect trace already contains the
playback-started publish — the side-effect step precedes the
object-existence check, contradicting the claimed ordering. -/
theorem claim4_counterexample :
    (stream_station 1 (some pastStation) [sampleTrack] storeWithout none).1.status
      = 404 ∧
    Eff.publishPlayback "1" "10" none
      ∈ (stream_station 1 (some pastStation) [sampleTrack] storeWithout none).2 := by
  refine ⟨rfl, ?_⟩
  decide

/-- C4 (amended): in `stream_station` the side-effect step (gauge
increment, playback-started counter, playback publish) runs after the
track is resolved but before the object-existence check, so every
delivery that fails with 404 because the object is absent has already
published the playback-started event. -/
theorem claim4_publish_before_existence_check
    (stationId : Nat) (station : StationRow) (track : TrackRow)
    (rest : List TrackRow) (storage : Storage) (rangeHeader : Option String)
    (hactive : station.is_active = true)
    (habsent : storage.fileExists track.file_path = false) :
    (stream_station stationId (some station) (track :: rest) storage
        rangeHeader).1.status = 404 ∧
    Eff.publishPlayback (toString stationId) (toString track.id) none
      ∈ (stream_station stationId (some station) (track :: rest) storage
          rangeHeader).2 := by
  simp only [stream_station, hactive, habsent]
  refine ⟨rfl, ?_⟩
  simp

/-- C4 witness: the amended theorem applied at a concrete delivery. -/
theorem claim4_witness :
    pastStation.is_active = true ∧
    storeWithout.fileExists sampleTrack.file_path = false ∧
    ((stream_station 1 (some pastStation) [sampleTrack] storeWithout none).1.status
        = 404 ∧
      Eff.publishPlayback (toString 1) (toString sampleTrack.id) none
        ∈ (stream_station 1 (some pastStation) [sampleTrack] storeWithout none).2) :=
  ⟨rfl, rfl,
    claim4_publish_before_existence_check 1 pastStation sampleTrack [] storeWithout
      none rfl rfl⟩

/-- C7: a streaming request with no Range header against an existing
track whose object exists yields 200, the whole object as body,
Content-Length equal to the track's recorded size, and
Accept-Ranges "bytes" — on both endpoints. -/
theorem claim7_full_request
    (trackId stationId : Nat) (track : TrackRow) (rest : List TrackRow)
    (station : StationRow) (storage : Storage)
    (hactive : station.is_active = true)
    (hex : storage.fileExists track.file_path = true) :
    ((stream_track trackId (some track) storage none).1.status = 200 ∧
      (stream_track trackId (some track) storage none).1.body
        = storage.getFile track.file_path ∧
      headerVal (stream_track trackId (some track) storage none).1
        "Content-Length" = some (toString track.file_size) ∧
      headerVal (stream_track trackId (some track) storage none).1
        "Accept-Ranges" = some "bytes") ∧
    ((stream_station stationId (some station) (track :: rest) storage none).1.status
        = 200 ∧
      (stream_station stationId (some station) (track :: rest) storage none).1.body
        = storage.getFile track.file_path ∧
      headerVal
        (stream_station stationId (some station) (track :: rest) storage none).1
        "Content-Length" = some (toString track.file_size) ∧
      headerVal
        (stream_station stationId (some station) (track :: rest) storage none).1
        "Accept-Ranges" = some "bytes") := by
  simp only [stream_track, stream_station, hactive, hex]
  exact ⟨⟨rfl, rfl, rfl, rfl⟩, ⟨rfl, rfl, rfl, rfl⟩⟩

/-- C7 witness: the theorem applied at a concrete track and store. -/
theorem claim7_witness :
    pastStation.is_active = true ∧
    storeWith.fileExists sampleTrack.file_path = true ∧
    (stream_track 10 (some sampleTrack) storeWith none).1.status = 200 ∧
    headerVal (stream_track 10 (some sampleTrack) storeWith none).1
      "Content-Length" = some "1000" :=
  ⟨rfl, rfl,
    (claim7_full_request 10 1 sampleTrack [] pastStation storeWith rfl rfl).1.1,
    (claim7_full_request 10 1 sampleTrack [] pastStation storeWith rfl rfl).1.2.2.1⟩

/-- C10: the per-track endpoint performs no playback side effects — for
every input its trace never touches the `streaming_connections_active`
gauge, the `playback_started_total` counter, or a playback publish —
while the station endpoint's success trace does touch them. -/
theorem claim10_no_playback_side_effects :
    (∀ (trackId : Nat) (trackQ : Option TrackRow) (storage : Storage)
        (rangeHeader : Option String),
      touchesPlayback (stream_track trackId trackQ storage rangeHeader).2
        = false) ∧
    touchesPlayback
        (stream_station 1 (some pastStation) [sampleTrack] storeWith none).2
      = true := by
  constructor
  · intro trackId trackQ storage rangeHeader
    cases trackQ with
    | none => rfl
    | some track =>
      simp only [stream_track]
      cases hex : storage.fileExists track.file_path with
      | false => simp [hex]; rfl
      | true =>
        cases rangeHeader with
        | none => simp [hex]; rfl
        | some header =>
          cases hr : resolveRange header track.file_size with
          | error u => simp [hex, hr]; rfl
          | ok p => cases p with
            | mk s e => simp [hex, hr]; rfl
  · rfl

/-- Helper: a successful range resolution with an empty (missing) start
token has start 0. -/
theorem resolveRange_start_missing {header : String} {L s e : Int}
    (h : resolveRange header L = .ok (s, e))
    (hfirst : (pyRangeParts header).headD "" = "") : s = 0 := by
  unfold resolveRange at h
  rw [show startTokenVal (pyRangeParts header) = some 0 by
        unfold startTokenVal; rw [hfirst]; rfl] at h
  cases hend : endTokenVal (pyRangeParts header) L with
  | none => rw [hend] at h; cases h
  | some v => rw [hend] at h; cases h; rfl

/-- Helper: a successful range resolution with a missing or empty end
token has end `fileSize - 1`. -/
theorem resolveRange_end_missing {header : String} {L s e : Int}
    (h : resolveRange header L = .ok (s, e))
    (hsnd : (pyRangeParts header)[1]? = none ∨
      (pyRangeParts header)[1]? = some "") : e = L - 1 := by
  unfold resolveRange at h
  have hend : endTokenVal (pyRangeParts header) L = some (L - 1) := by
    rcases hsnd with h2 | h2 <;> simp [endTokenVal, h2]
  cases hstart : startTokenVal (pyRangeParts header) with
  | none => rw [hstart] at h; cases h
  | some v => rw [hstart, hend] at h; cases h; rfl

/-- C3: a Range header whose tokens parse (resolution yields `(s, e)`)
is served as 206 on both endpoints with
`Content-Length = e - s + 1`, `Content-Range = "bytes s-e/L"` and
`Accept-Ranges: bytes`, the values used as-is with no bounds check
against the recorded size; a missing start token is taken as 0 and a
missing end token as `L - 1`. -/
theorem claim3_range_request
    (trackId stationId : Nat) (track : TrackRow) (rest : List TrackRow)
    (station : StationRow) (storage : Storage) (header : String) (s e : Int)
    (hactive : station.is_active = true)
    (hex : storage.fileExists track.file_path = true)
    (h : resolveRange header track.file_size = .ok (s, e)) :
    ((stream_track trackId (some track) storage (some header)).1.status = 206 ∧
      headerVal (stream_track trackId (some track) storage (some header)).1
        "Content-Length" = some (toString (e - s + 1)) ∧
      headerVal (stream_track trackId (some track) storage (some header)).1
        "Content-Range" =
          some ("bytes " ++ toString s ++ "-" ++ toString e ++ "/" ++
            toString track.file_size) ∧
      headerVal (stream_track trackId (some track) storage (some header)).1
        "Accept-Ranges" = some "bytes") ∧
    ((stream_station stationId (some station) (track :: rest) storage
        (some header)).1.status = 206 ∧
      headerVal (stream_station stationId (some station) (track :: rest) storage
        (some header)).1 "Content-Length" = some (toString (e - s + 1)) ∧
      headerVal (stream_station stationId (some station) (track :: rest) storage
        (some header)).1 "Content-Range" =
          some ("bytes " ++ toString s ++ "-" ++ toString e ++ "/" ++
            toString track.file_size) ∧
      headerVal (stream_station stationId (some station) (track :: rest) storage
        (some header)).1 "Accept-Ranges" = some "bytes") ∧
    ((pyRangeParts header).headD "" = "" → s = 0) ∧
    ((pyRangeParts header)[1]? = none ∨ (pyRangeParts header)[1]? = some "" →
      e = track.file_size - 1) := by
  simp only [stream_track, stream_station, hactive, hex, h]
  refine ⟨⟨rfl, rfl, rfl, rfl⟩, ⟨rfl, rfl, rfl, rfl⟩, ?_, ?_⟩
  · intro hfirst
    exact resolveRange_start_missing h hfirst
  · intro hsnd
    exact resolveRange_end_missing h hsnd

/-- C3 witness: the spec's scenario `bytes=100-199` on a 1000-byte
track, via the theorem. -/
theorem claim3_witness :
    resolveRange "bytes=100-199" sampleTrack.file_size = .ok (100, 199) ∧
    (stream_track 10 (some sampleTrack) storeWith (some "bytes=100-199")).1.status
      = 206 ∧
    headerVal
      (stream_track 10 (some sampleTrack) storeWith (some "bytes=100-199")).1
      "Content-Range" = some "bytes 100-199/1000" ∧
    headerVal
      (stream_track 10 (some sampleTrack) storeWith (some "bytes=100-199")).1
      "Content-Length" = some "100" :=
  ⟨rfl,
    (claim3_range_request 10 1 sampleTrack [] pastStation storeWith
      "bytes=100-199" 100 199 rfl rfl rfl).1.1,
    (claim3_range_request 10 1 sampleTrack [] pastStation storeWith
      "bytes=100-199" 100 199 rfl rfl rfl).1.2.2.1,
    (claim3_range_request 10 1 sampleTrack [] pastStation storeWith
      "bytes=100-199" 100 199 rfl rfl rfl).1.2.1⟩

/-- C9: a Range header with a present but unparseable start or end
token (range resolution fails) makes both endpoints answer 500 — the
`ValueError` from `int()` reaches the generic exception handler; there
is no full-object fallback and no 416. -/
theorem claim9_malformed_range
    (trackId stationId : Nat) (track : TrackRow) (rest : List TrackRow)
    (station : StationRow) (storage : Storage) (header : String)
    (hactive : station.is_active = true)
    (hex : storage.fileExists track.file_path = true)
    (h : resolveRange header track.file_size = .error ()) :
    (stream_track trackId (some track) storage (some header)).1.status = 500 ∧
    (stream_station stationId (some station) (track :: rest) storage
        (some header)).1.status = 500 := by
  simp only [stream_track, stream_station, hactive, hex, h]
  exact ⟨rfl, rfl⟩

/-- C9 witness: the malformed header `bytes=abc-10`, via the theorem. -/
theorem claim9_witness :
    resolveRange "bytes=abc-10" sampleTrack.file_size = .error () ∧
    (stream_track 10 (some sampleTrack) storeWith (some "bytes=abc-10")).1.status
      = 500 ∧
    (stream_station 1 (some pastStation) [sampleTrack] storeWith
        (some "bytes=abc-10")).1.status = 500 :=
  ⟨rfl,
    (claim9_malformed_range 10 1 sampleTrack [] pastStation storeWith
      "bytes=abc-10" rfl rfl rfl).1,
    (claim9_malformed_range 10 1 sampleTrack [] pastStation storeWith
      "bytes=abc-10" rfl rfl rfl).2⟩

/-- Helper: appending an element whose key duplicates a member's key
falsifies the uniqueness check. -/
theorem nodupKeys_append_dup {α β : Type} [DecidableEq β] (key : α → β)
    {l : List α} {t : α} (x : α) (ht : t ∈ l) (hk : key t = key x) :
    nodupKeys key (l ++ [x]) = false := by
  induction l with
  | nil => cases ht
  | cons y ys ih =>
    show (!((ys ++ [x]).map key).contains (key y) &&
        nodupKeys key (ys ++ [x])) = false
    rcases List.mem_cons.mp ht with heq | hys
    · have hmem : key y ∈ (ys ++ [x]).map key := by
        rw [← heq, hk]
        exact List.mem_map.mpr
          ⟨x, List.mem_append_right _ (List.mem_singleton.mpr rfl), rfl⟩
      have hcon : ((ys ++ [x]).map key).contains (key y) = true :=
        List.elem_eq_true_of_mem hmem
      rw [hcon]
      rfl
    · rw [ih hys, Bool.and_false]

/-- Helper: the track unique-constraint check fails when the appended
row's key duplicates an existing row's key. -/
theorem tracksConstraintOk_append_dup {l : List TrackRow} {t : TrackRow}
    (x : TrackRow) (ht : t ∈ l) (h1 : t.tenant_id = x.tenant_id)
    (h2 : t.file_path = x.file_path) :
    tracksConstraintOk (l ++ [x]) = false := by
  unfold tracksConstraintOk
  exact nodupKeys_append_dup (fun tr => (tr.tenant_id, tr.file_path)) x ht
    (show (t.tenant_id, t.file_path) = (x.tenant_id, x.file_path) by
      rw [h1, h2])

/-- Helper: every member of a list is at most its `listMax`. -/
theorem listMax_le {xs : List Int} {x m : Int} (hx : x ∈ xs)
    (hm : listMax xs = some m) : x ≤ m := by
  induction xs generalizing m with
  | nil => cases hx
  | cons y ys ih =>
    unfold listMax at hm
    cases hys : listMax ys with
    | none =>
      rw [hys] at hm
      cases hm
      cases ys with
      | nil =>
        rcases List.mem_cons.mp hx with rfl | hmem
        · exact le_refl _
        · cases hmem
      | cons z zs =>
        unfold listMax at hys
        cases h2 : listMax zs <;> rw [h2] at hys <;> cases hys
    | some my =>
      rw [hys] at hm
      cases hm
      rcases List.mem_cons.mp hx with rfl | hmem
      · exact le_max_left _ _
      · exact le_trans (ih hmem hys) (le_max_right _ _)

/-- Helper: a nonempty list has a `listMax` bounding any given member. -/
theorem listMax_mem_some {xs : List Int} {x : Int} (hx : x ∈ xs) :
    ∃ m, listMax xs = some m ∧ x ≤ m := by
  cases hxs : listMax xs with
  | none =>
    cases xs with
    | nil => cases hx
    | cons y ys =>
      unfold listMax at hxs
      cases h2 : listMax ys <;> rw [h2] at hxs <;> cases hxs
  | some m => exact ⟨m, rfl, listMax_le hx hxs⟩

theorem orZero_some (v : Int) : orZero (some v) = v := by
  unfold orZero
  by_cases h : v = 0 <;> simp [h]

/-- Helper: a station's max order bounds each of its links' orders. -/
theorem maxOrderOf_bounds {sts : List StationTrackRow} {l : StationTrackRow}
    (hl : l ∈ sts) :
    ∃ m, maxOrderOf sts l.station_id = some m ∧ l.order ≤ m := by
  apply listMax_mem_some
  exact List.mem_map.mpr
    ⟨l, List.mem_filter.mpr ⟨hl, by simp⟩, rfl⟩

/-- Helper: links for other stations do not change a station's max
order. -/
theorem maxOrderOf_append_ne {sts pend : List StationTrackRow} {sid : Nat}
    (h : ∀ q ∈ pend, q.station_id ≠ sid) :
    maxOrderOf (sts ++ pend) sid = maxOrderOf sts sid := by
  have hnil : pend.filter (fun l => l.station_id == sid) = [] :=
    List.filter_eq_nil_iff.mpr (fun q hq => by simpa using h q hq)
  unfold maxOrderOf
  rw [List.filter_append, hnil, List.append_nil]

/-- Helper: the stations receiving links are exactly those passing
`should_link`, in order. -/
theorem linkLoop_station_ids (track_id : Nat) (context : Context) :
    ∀ (actives : List StationRow) (sts : List StationTrackRow) (fresh : Nat),
      (linkLoop track_id context sts actives fresh).map (·.station_id)
        = (actives.filter (fun s => shouldLink s context)).map (·.id) := by
  intro actives
  induction actives with
  | nil => intro sts fresh; rfl
  | cons station rest ih =>
    intro sts fresh
    simp only [linkLoop]
    by_cases hsl : shouldLink station context
    · simp [hsl, List.filter_cons, ih]
    · simp [hsl, List.filter_cons, ih]

/-- Helper: each link created by the loop gets an order strictly above
every order the station already had. -/
theorem linkLoop_order_gt (track_id : Nat) (context : Context) :
    ∀ (actives : List StationRow) (sts : List StationTrackRow) (fresh : Nat),
      ∀ l ∈ linkLoop track_id context sts actives fresh,
        ∀ old ∈ sts, old.station_id = l.station_id → old.order < l.order := by
  intro actives
  induction actives with
  | nil => intro sts fresh l hl; cases hl
  | cons station rest ih =>
    intro sts fresh l hl old hold heq
    simp only [linkLoop] at hl
    by_cases hsl : shouldLink station context
    · rw [if_pos hsl] at hl
      rcases List.mem_cons.mp hl with rfl | htail
      · have heq' : old.station_id = station.id := heq
        obtain ⟨m, hm, hle⟩ := maxOrderOf_bounds hold
        rw [heq'] at hm
        show old.order < orZero (maxOrderOf sts station.id) + 1
        rw [hm, orZero_some]
        omega
      · exact ih _ _ l htail old (List.mem_append_left _ hold) heq
    · rw [if_neg hsl] at hl
      exact ih _ _ l hl old hold heq

/-- Helper: with distinct station ids and pending links only for
stations outside the remaining loop, each created link's order is the
pre-existing max for its station plus one. -/
theorem linkLoop_order_eq (track_id : Nat) (context : Context) :
    ∀ (actives : List StationRow) (sts₀ pend : List StationTrackRow)
      (fresh : Nat),
      (actives.map (·.id)).Nodup →
      (∀ q ∈ pend, q.station_id ∉ actives.map (·.id)) →
      ∀ l ∈ linkLoop track_id context (sts₀ ++ pend) actives fresh,
        l.order = orZero (maxOrderOf sts₀ l.station_id) + 1 := by
  intro actives
  induction actives with
  | nil => intro sts₀ pend fresh _ _ l hl; cases hl
  | cons station rest ih =>
    intro sts₀ pend fresh hnd hp l hl
    have hnd0 : (station.id :: rest.map (·.id)).Nodup := by simpa using hnd
    obtain ⟨hnotin, hndr⟩ := List.nodup_cons.mp hnd0
    simp only [linkLoop] at hl
    by_cases hsl : shouldLink station context
    · rw [if_pos hsl] at hl
      rcases List.mem_cons.mp hl with rfl | htail
      · show orZero (maxOrderOf (sts₀ ++ pend) station.id) + 1
          = orZero (maxOrderOf sts₀ station.id) + 1
        rw [maxOrderOf_append_ne (fun q hq => by
          have := hp q hq
          simp only [List.map_cons, List.mem_cons] at this
          exact fun hc => this (Or.inl hc))]
      · rw [List.append_assoc] at htail
        apply ih sts₀ _ (fresh + 1) hndr ?_ l htail
        intro q hq
        rcases List.mem_append.mp hq with hq1 | hq2
        · have := hp q hq1
          simp only [List.map_cons, List.mem_cons] at this
          intro hc
          exact this (Or.inr hc)
        · rcases List.mem_singleton.mp hq2 with rfl
          exact hnotin
    · rw [if_neg hsl] at hl
      apply ih sts₀ pend fresh hndr ?_ l hl
      intro q hq
      have := hp q hq
      simp only [List.map_cons, List.mem_cons] at this
      exact fun hc => this (Or.inr hc)

/-- C1 counterexample: replaying the notification for an
already-ingested storage key makes `_process_message` fail with the
unique-constraint error and re-raise it to the consumer loop — it does
not return normally — while the rolled-back catalog still holds exactly
one Track row for that key. -/
theorem claim1_counterexample :
    process_message dupDb dupMsg 7 = (.error, dupDb) ∧
    (dupDb.tracks.filter fun t =>
        t.tenant_id == DEFAULT_TENANT_ID && t.file_path == "song.mp3").length
      = 1 :=
  ⟨rfl, rfl⟩

/-- C1 (amended): ingesting a notification whose storage key already
has a Track row in the default tenant fails at the unique-constraint
check; the transaction rolls back, leaving the catalog (and its single
Track row for that key) unchanged, and the error is re-raised to the
caller rather than swallowed as an idempotent no-op. -/
theorem claim1_duplicate_key_reraised
    (db : DB) (message : Message) (fresh : Nat) (p : String)
    (hp : message.file_path = some p) (hpne : p ≠ "")
    (t : TrackRow) (ht : t ∈ db.tracks)
    (htt : t.tenant_id = DEFAULT_TENANT_ID) (htp : t.file_path = p) :
    process_message db message fresh = (.error, db) := by
  simp only [process_message, hp, Option.getD_some]
  rw [if_neg hpne]
  split
  · rfl
  · split
    · rfl
    · split
      · rfl
      · rename_i h2
        exact absurd
          (tracksConstraintOk_append_dup _ ht (by rw [htt]) (by rw [htp])) h2

/-- C1 witness: the amended theorem applied to the concrete replayed
notification. -/
theorem claim1_witness :
    dupMsg.file_path = some "song.mp3" ∧
    ("song.mp3" : String) ≠ "" ∧
    ingestedTrack ∈ dupDb.tracks ∧
    ingestedTrack.tenant_id = DEFAULT_TENANT_ID ∧
    ingestedTrack.file_path = "song.mp3" ∧
    process_message dupDb dupMsg 7 = (.error, dupDb) :=
  ⟨rfl, by decide, by decide, rfl, rfl,
    claim1_duplicate_key_reraised dupDb dupMsg 7 "song.mp3" rfl (by decide)
      ingestedTrack (by decide) rfl rfl⟩

/-- C5 counterexample: an active UPCOMING station whose notification
context carries `concert_id` present but equal to the empty string
(falsy in Python) receives no link, refuting "linked if and only if
concert_id is present". -/
theorem claim5_counterexample :
    ({ concert_id := some "" } : Context).concert_id.isSome = true ∧
    link_to_stations [] [upcomingStation] 9 { concert_id := some "" } 50
      = [] :=
  ⟨rfl, rfl⟩

/-- C5 (amended): the linking step creates links exactly for the active
stations satisfying the type rule — UPCOMING if and only if the
context's `concert_id` is present with a truthy (non-empty) value, PAST
always, GENRE always; inactive stations are never linked. -/
theorem claim5_station_linking :
    ∀ (sts : List StationTrackRow) (stations : List StationRow)
      (track_id : Nat) (context : Context) (fresh : Nat),
      (link_to_stations sts stations track_id context fresh).map (·.station_id)
        = (stations.filter
            (fun s => s.is_active && shouldLink s context)).map (·.id) := by
  intro sts stations track_id context fresh
  unfold link_to_stations
  rw [linkLoop_station_ids, List.filter_filter]
  congr 1
  exact List.filter_congr fun a _ => Bool.and_comm _ _

/-- C6: a new link's order is the station's current maximum plus one
(one when the station has no links, since the max is then `None`,
read as 0); each new order is strictly above every order the station
already had; and the `(station, track)` unique constraint checked at
commit preserves pair-uniqueness of the playlist across ingestions. -/
theorem claim6_order_assignment :
    (∀ (sts : List StationTrackRow) (stations : List StationRow)
        (track_id : Nat) (context : Context) (fresh : Nat),
      ((stations.filter (·.is_active)).map (·.id)).Nodup →
      ∀ l ∈ link_to_stations sts stations track_id context fresh,
        l.order = orZero (maxOrderOf sts l.station_id) + 1) ∧
    (∀ (sts : List StationTrackRow) (stations : List StationRow)
        (track_id : Nat) (context : Context) (fresh : Nat),
      ∀ l ∈ link_to_stations sts stations track_id context fresh,
        ∀ old ∈ sts, old.station_id = l.station_id → old.order < l.order) ∧
    (∀ (db : DB) (message : Message) (fresh : Nat),
      stationTracksConstraintOk db.stationTracks = true →
      stationTracksConstraintOk
          (process_message db message fresh).2.stationTracks = true) := by
  refine ⟨?_, ?_, ?_⟩
  · intro sts stations track_id context fresh hnd l hl
    apply linkLoop_order_eq track_id context (stations.filter (·.is_active))
      sts [] fresh hnd (fun q hq => absurd hq (List.not_mem_nil q)) l
    rw [List.append_nil]
    exact hl
  · intro sts stations track_id context fresh l hl old hold heq
    exact linkLoop_order_gt track_id context (stations.filter (·.is_active))
      sts fresh l hl old hold heq
  · intro db message fresh h
    simp only [process_message]
    split
    · exact h
    · split
      · exact h
      · split
        · exact h
        · split
          · exact h
          · split
            · exact h
            · rename_i hcond
              exact Bool.ne_false_iff.mp hcond

/-- C6 witness: the theorem applied to a station holding one link of
order 7 (new order 8) and to a concrete successful ingestion. -/
theorem claim6_witness :
    (([pastStation].filter (·.is_active)).map (·.id)).Nodup ∧
    (⟨100, 1, 9, 8⟩ : StationTrackRow)
      ∈ link_to_stations [fixtureLink] [pastStation] 9 ctxNone 100 ∧
    (⟨100, 1, 9, 8⟩ : StationTrackRow).order
      = orZero (maxOrderOf [fixtureLink] 1) + 1 ∧
    fixtureLink.order < (⟨100, 1, 9, 8⟩ : StationTrackRow).order ∧
    stationTracksConstraintOk freshDb.stationTracks = true ∧
    stationTracksConstraintOk
        (process_message freshDb dupMsg 7).2.stationTracks = true :=
  ⟨by decide, by decide,
    claim6_order_assignment.1 [fixtureLink] [pastStation] 9 ctxNone 100
      (by decide) ⟨100, 1, 9, 8⟩ (by decide),
    claim6_order_assignment.2.1 [fixtureLink] [pastStation] 9 ctxNone 100
      ⟨100, 1, 9, 8⟩ (by decide) fixtureLink (by decide) rfl,
    by decide,
    claim6_order_assignment.2.2 freshDb dupMsg 7 (by decide)⟩

/-- C8 counterexample: with the catalog holding only an artist named
"X" in tenant "tenant-1" (not the default tenant used for ingestion),
artist resolution returns that other tenant's row instead of creating
a new artist — the lookup is not tenant-scoped. -/
theorem claim8_counterexample :
    get_or_create_artist [crossTenantArtist] "X" 5
      = .ok (crossTenantArtist, [crossTenantArtist]) ∧
    crossTenantArtist.tenant_id ≠ DEFAULT_TENANT_ID :=
  ⟨rfl, by decide⟩

/-- C8 (amended): artist resolution looks up by exact name with no
tenant filter — a unique match in any tenant is reused as-is; only when
no artist of that name exists in any tenant is a new Artist created
with a fresh identity under the fixed default tenant; two same-name
artists in different tenants make the single-row lookup raise
(`MultipleResultsFound`), failing the ingestion. -/
theorem claim8_artist_resolution :
    ∀ (artists : List ArtistRow) (artist_name : String) (fresh : Nat),
      (artists.filter (fun a => a.name == artist_name) = [] →
        get_or_create_artist artists artist_name fresh =
          .ok ({ id := fresh, name := artist_name, genre := none, bio := none,
                 tenant_id := DEFAULT_TENANT_ID },
            artists ++ [{ id := fresh, name := artist_name, genre := none,
                          bio := none, tenant_id := DEFAULT_TENANT_ID }])) ∧
      (∀ a, artists.filter (fun x => x.name == artist_name) = [a] →
        get_or_create_artist artists artist_name fresh = .ok (a, artists)) ∧
      (∀ a b rest,
        artists.filter (fun x => x.name == artist_name) = a :: b :: rest →
        get_or_create_artist artists artist_name fresh = .error ()) := by
  intro artists artist_name fresh
  refine ⟨?_, ?_, ?_⟩
  · intro h
    unfold get_or_create_artist
    rw [h]
  · intro a h
    unfold get_or_create_artist
    rw [h]
  · intro a b rest h
    unfold get_or_create_artist
    rw [h]

/-- C8 witness: the theorem applied to an empty catalog (creation under
the default tenant) and to a catalog already holding the artist. -/
theorem claim8_witness :
    ([] : List ArtistRow).filter (fun a => a.name == "Z") = [] ∧
    get_or_create_artist [] "Z" 4 =
      .ok ({ id := 4, name := "Z", genre := none, bio := none,
             tenant_id := DEFAULT_TENANT_ID },
        [{ id := 4, name := "Z", genre := none, bio := none,
           tenant_id := DEFAULT_TENANT_ID }]) ∧
    [artistY].filter (fun x => x.name == "Y") = [artistY] ∧
    get_or_create_artist [artistY] "Y" 4 = .ok (artistY, [artistY]) :=
  ⟨rfl, (claim8_artist_resolution [] "Z" 4).1 rfl, rfl,
    (claim8_artist_resolution [artistY] "Y" 4).2.1 artistY rfl⟩

end CloudSound
